import Mathlib

/-!
Shallow embedding of the transfer engines of the repository:

* `lab_6/api1.py`, class `BankAPI`: the final (binding) definition of
  `transfer_money` (lines 405-482), its helper `_get_exchange_rates`
  (lines 50-66), and the commit/rollback behaviour of
  `lab_6/models.py`, `DatabaseConnection.__exit__` (lines 23-29).
* `lab_4/api_transactions.py`, function `transfer_money` (lines 5-27)
  with the `db_connection` wrapper of `lab_4/db_utils.py`.

Monetary amounts and exchange rates are embedded as rationals (exact
arithmetic); account and bank rows as structures; the Account table as an
association list from integer id to row; the Transaction table as a list
of records.  The rate provider's HTTP outcome and the possible failure of
each SQL write statement are explicit parameters, so that the embedding
covers every control path of the Python code, including the exception
paths.  Timestamps (`datetime.now()`) are not modelled: no claim refers
to them.
-/

/-- One row of the Account table, with the bank display name joined in
(as produced by `BankAPI.get_account`, api1.py lines 365-375). -/
structure Account where
  amount : ℚ
  currency : String
  bank_name : String
deriving Repr, DecidableEq

/-- One row of the Transaction table, as written by the INSERT of
api1.py lines 453-468 (the `datetime` column is not modelled). -/
structure TxRecord where
  bank_sender_name : String
  account_sender_id : Nat
  bank_receiver_name : String
  account_receiver_id : Nat
  sent_currency : String
  sent_amount : ℚ
deriving Repr, DecidableEq

/-- The persistent store: the Account table keyed by id, and the
Transaction table as an append-only list. -/
structure Store where
  accounts : List (Nat × Account)
  txs : List TxRecord
deriving Repr, DecidableEq

/-- Row lookup in the Account table: the first row with the given id. -/
def getRow : List (Nat × Account) → Nat → Option Account
  | [], _ => none
  | p :: rest, id => if p.1 = id then some p.2 else getRow rest id

/-- `UPDATE Account SET amount = ? WHERE id = ?` with an absolute new
value (the form used by api1.py lines 443-450): every row with the id is
set to the new amount. -/
def setRows : List (Nat × Account) → Nat → ℚ → List (Nat × Account)
  | [], _, _ => []
  | p :: rest, id, v =>
    (if p.1 = id then (p.1, { p.2 with amount := v }) else p) :: setRows rest id v

/-- `UPDATE Account SET Amount = Amount + ? WHERE id = ?` with a relative
delta (the form used by api_transactions.py lines 22-23). -/
def addRows : List (Nat × Account) → Nat → ℚ → List (Nat × Account)
  | [], _, _ => []
  | p :: rest, id, d =>
    (if p.1 = id then (p.1, { p.2 with amount := p.2.amount + d }) else p) :: addRows rest id d

/-- `SELECT ... FROM Account ... WHERE a.id = ?` followed by `fetchone()`. -/
def Store.getAccount (s : Store) (id : Nat) : Option Account :=
  getRow s.accounts id

/-- Absolute balance update on the store. -/
def Store.setAmount (s : Store) (id : Nat) (newAmount : ℚ) : Store :=
  { s with accounts := setRows s.accounts id newAmount }

/-- Relative balance update on the store. -/
def Store.addAmount (s : Store) (id : Nat) (delta : ℚ) : Store :=
  { s with accounts := addRows s.accounts id delta }

/-- The balance the store currently records for an account id
(0 if the account does not exist; used only to state theorems). -/
def Store.balanceOf (s : Store) (id : Nat) : ℚ :=
  ((s.getAccount id).map Account.amount).getD 0

/-- Lookup of a currency code in a rate table (`rates[c]` / `c in rates`). -/
def lookupRate : List (String × ℚ) → String → Option ℚ
  | [], _ => none
  | p :: rest, c => if p.1 = c then some p.2 else lookupRate rest c

/-- `BankAPI._get_exchange_rates` (api1.py lines 50-66).  The HTTP outcome
is a parameter: `some m` is a successful response whose JSON carries the
rate mapping `m` under the key `data`; `none` is a raised
`requests.exceptions.RequestException` (line 64) or a response without a
`data` key (line 63) — in both of those cases the method returns the
one-entry fallback mapping `\x7bbase_currency: 1.0\x7d`. -/
def get_exchange_rates (provider : Option (List (String × ℚ)))
    (base_currency : String) : List (String × ℚ) :=
  provider.getD [(base_currency, 1)]

/-- The `transfer_data` dict of api1.py line 406: each required key is
present (`some`) or absent (`none`).  `validate_required_fields` (lines
20-24) only tests key presence. -/
structure TransferData where
  sender_account_id : Option Nat
  receiver_account_id : Option Nat
  amount : Option ℚ
  currency : Option String
deriving Repr, DecidableEq

/-- The list of missing required keys, in the order of api1.py
lines 410-415, as computed by `validate_required_fields`. -/
def TransferData.missingFields (td : TransferData) : List String :=
  (if td.sender_account_id = none then ["sender_account_id"] else []) ++
  (if td.receiver_account_id = none then ["receiver_account_id"] else []) ++
  (if td.amount = none then ["amount"] else []) ++
  (if td.currency = none then ["currency"] else [])

/-- The structured result dict of `transfer_money`: status, message, and
on success the `details` triple (sender_new_balance, receiver_new_balance,
exchange-rate snapshot) of api1.py lines 470-478. -/
structure TransferResult where
  status : String
  message : String
  details : Option (ℚ × ℚ × List (String × ℚ))
deriving Repr, DecidableEq

/-- Which of the three write statements of api1.py lines 443-468 raises
(sqlite errors are environmental, so they are a parameter of the
embedding).  `False` everywhere is a fault-free run. -/
structure FailSpec where
  update_sender : Bool
  update_receiver : Bool
  insert_tx : Bool
deriving Repr, DecidableEq

/-- A fault-free write phase. -/
def FailSpec.none : FailSpec := ⟨false, false, false⟩

/-- The message `str(e)` of a raised sqlite error (a representative
constant; its exact text does not matter to any claim). -/
def dbErrorMsg : String := "database is locked"

def errResult (msg : String) : TransferResult :=
  { status := "error", message := msg, details := none }

/-- `BankAPI.transfer_money` (api1.py lines 405-482), together with the
commit behaviour of `DatabaseConnection.__exit__` (models.py lines
23-29).  Returns the result dict and the state of the store as committed
when the call returns.

Control-flow notes, each traceable to the source:
* Missing keys: `validate_required_fields` raises `ValueError`, caught by
  the blanket `except Exception` of line 480, so the call returns an
  error dict listing the missing keys (line 24) with the store untouched.
* Account reads go through `self.get_account` (lines 418-419); a missing
  row yields the combined error of line 422.
* The balance check of line 425 compares the stored balance against the
  raw requested `amount`, before any rate is fetched.
* The membership check of line 430 covers the requested and receiver
  currencies only; indexing `rates[sender.currency]` at line 434 can
  therefore raise `KeyError`, caught at line 480 (modelled message
  `"KeyError"`); a zero rate for the requested currency makes the float
  division of line 434 raise `ZeroDivisionError` (modelled with Python's
  message for it).
* Each write statement may raise; the `except Exception` of line 480
  swallows the exception and returns an error dict, so
  `DatabaseConnection.__exit__` sees `exc_type is None` and COMMITS
  whatever statements had already executed.  The committed store after a
  failing write therefore contains the earlier writes of the same call. -/
def transfer_money (provider : Option (List (String × ℚ))) (fs : FailSpec)
    (store : Store) (td : TransferData) : TransferResult × Store :=
  match td.sender_account_id, td.receiver_account_id, td.amount, td.currency with
  | some sender_account_id, some receiver_account_id, some amount, some currency =>
    match store.getAccount sender_account_id, store.getAccount receiver_account_id with
    | some sender, some receiver =>
      if sender.amount < amount then
        (errResult "Insufficient funds", store)
      else
        let rates := get_exchange_rates provider sender.currency
        match lookupRate rates currency, lookupRate rates receiver.currency with
        | some rate_currency, some rate_receiver =>
          match lookupRate rates sender.currency with
          | none => (errResult "KeyError", store)
          | some rate_sender =>
            if rate_currency = 0 then
              (errResult "float division by zero", store)
            else
              let amount_in_sender_currency := amount / rate_currency * rate_sender
              let amount_in_receiver_currency := amount / rate_currency * rate_receiver
              let new_sender_balance := sender.amount - amount_in_sender_currency
              let new_receiver_balance := receiver.amount + amount_in_receiver_currency
              if fs.update_sender then
                (errResult dbErrorMsg, store)
              else
                let s1 := store.setAmount sender_account_id new_sender_balance
                if fs.update_receiver then
                  (errResult dbErrorMsg, s1)
                else
                  let s2 := s1.setAmount receiver_account_id new_receiver_balance
                  if fs.insert_tx then
                    (errResult dbErrorMsg, s2)
                  else
                    let s3 := { s2 with txs := s2.txs ++
                      [{ bank_sender_name := sender.bank_name
                         account_sender_id := sender_account_id
                         bank_receiver_name := receiver.bank_name
                         account_receiver_id := receiver_account_id
                         sent_currency := currency
                         sent_amount := amount }] }
                    ({ status := "success"
                       message := "Transfer completed successfully"
                       details := some (new_sender_balance, new_receiver_balance, rates) },
                     s3)
        | _, _ => (errResult "Unsupported currency", store)
    | _, _ => (errResult "One or both accounts not found", store)
  | _, _, _, _ =>
    (errResult ("Missing required fields: " ++
      String.intercalate ", " td.missingFields), store)

/-- `transfer_money` of lab_4/api_transactions.py (lines 5-27).  The two
balance updates are relative (`SET Amount = Amount ± ?`), and the result
is the returned status string.  String interpolation of the ids and the
amount follows the source f-strings. -/
def transfer_money_lab4 (store : Store) (from_account_id to_account_id : Nat)
    (amount : ℚ) : String × Store :=
  if amount ≤ 0 then
    ("Amount must be positive.", store)
  else
    match store.getAccount from_account_id with
    | none => (s!"From account id={from_account_id} not found.", store)
    | some from_acc =>
      if from_acc.amount < amount then
        (s!"Insufficient funds in account id={from_account_id}.", store)
      else
        match store.getAccount to_account_id with
        | none => (s!"To account id={to_account_id} not found.", store)
        | some _ =>
          let s1 := store.addAmount from_account_id (-amount)
          let s2 := s1.addAmount to_account_id amount
          (s!"Transferred {amount} from account {from_account_id} to {to_account_id} successfully.",
           s2)

/-- The success message of `transfer_money_lab4`. -/
def lab4SuccessMsg (from_account_id to_account_id : Nat) (amount : ℚ) : String :=
  s!"Transferred {amount} from account {from_account_id} to {to_account_id} successfully."

/-! ### Concrete fixtures used by individual claims -/

/-- Scenario A store: account 1 holds 5000 USD, account 2 holds 3000 EUR. -/
def storeA : Store :=
  ⟨[(1, ⟨5000, "USD", "BankA"⟩), (2, ⟨3000, "EUR", "BankB"⟩)], []⟩

/-- Scenario A provider snapshot: USD 1.0, EUR 0.85. -/
def ratesUSDEUR : Option (List (String × ℚ)) := some [("USD", 1), ("EUR", 17/20)]

/-- Store where the sender holds 95 USD. -/
def storeC2 : Store :=
  ⟨[(1, ⟨95, "USD", "BankA"⟩), (2, ⟨3000, "EUR", "BankB"⟩)], []⟩

/-- Store with two USD accounts (5000 and 3000). -/
def storeUSDUSD : Store :=
  ⟨[(1, ⟨5000, "USD", "BankA"⟩), (2, ⟨3000, "USD", "BankB"⟩)], []⟩

/-- Store with a single account holding 100 USD. -/
def storeSelf : Store := ⟨[(1, ⟨100, "USD", "BankA"⟩)], []⟩

/-- Store with a single account (id 7) holding 200 EUR. -/
def storeSelf7 : Store := ⟨[(7, ⟨200, "EUR", "BankC"⟩)], []⟩

/-! ### Lemmas about the store operations -/

lemma getRow_setRows_self (l : List (Nat × Account)) (id : Nat) (v : ℚ) :
    getRow (setRows l id v) id = (getRow l id).map (fun a => { a with amount := v }) := by
  induction l with
  | nil => rfl
  | cons p rest ih =>
      by_cases h : p.1 = id <;> simp [getRow, setRows, h, ih]

lemma getRow_setRows_ne (l : List (Nat × Account)) (id j : Nat) (v : ℚ) (h : j ≠ id) :
    getRow (setRows l id v) j = getRow l j := by
  induction l with
  | nil => rfl
  | cons p rest ih =>
      by_cases hp : p.1 = id
      · simp [getRow, setRows, hp, Ne.symm h, ih]
      · by_cases hj : p.1 = j <;> simp [getRow, setRows, hp, hj, h, ih]

lemma getRow_addRows_self (l : List (Nat × Account)) (id : Nat) (d : ℚ) :
    getRow (addRows l id d) id = (getRow l id).map (fun a => { a with amount := a.amount + d }) := by
  induction l with
  | nil => rfl
  | cons p rest ih =>
      by_cases h : p.1 = id <;> simp [getRow, addRows, h, ih]

lemma getRow_addRows_ne (l : List (Nat × Account)) (id j : Nat) (d : ℚ) (h : j ≠ id) :
    getRow (addRows l id d) j = getRow l j := by
  induction l with
  | nil => rfl
  | cons p rest ih =>
      by_cases hp : p.1 = id
      · simp [getRow, addRows, hp, Ne.symm h, ih]
      · by_cases hj : p.1 = j <;> simp [getRow, addRows, hp, hj, h, ih]

/-- Claim C1: at the failing input where the ledger INSERT raises after both
balance UPDATEs executed, the call returns status error, yet the two balance
changes are committed (the blanket except of api1.py line 480 swallows the
exception, so DatabaseConnection.__exit__ commits): the error result does not
leave the balances as they were. -/
theorem insert_failure_commits_partial_balance_updates :
    (transfer_money ratesUSDEUR ⟨false, false, true⟩ storeA
        ⟨some 1, some 2, some 100, some "USD"⟩).1.status = "error" ∧
    ((transfer_money ratesUSDEUR ⟨false, false, true⟩ storeA
        ⟨some 1, some 2, some 100, some "USD"⟩).2).balanceOf 1 = 4900 ∧
    ((transfer_money ratesUSDEUR ⟨false, false, true⟩ storeA
        ⟨some 1, some 2, some 100, some "USD"⟩).2).balanceOf 2 = 3085 ∧
    ((transfer_money ratesUSDEUR ⟨false, false, true⟩ storeA
        ⟨some 1, some 2, some 100, some "USD"⟩).2).txs = [] ∧
    storeA.balanceOf 1 = 5000 ∧ storeA.balanceOf 2 = 3000 := by
  norm_num +decide [transfer_money, get_exchange_rates, lookupRate, Store.getAccount, getRow,
    setRows, Store.setAmount, Store.balanceOf, errResult, dbErrorMsg, storeA, ratesUSDEUR]

/-- Claim C4, Scenario A: sender 5000 USD, receiver 3000 EUR, snapshot
USD 1.0 / EUR 0.85, transfer of 100 USD succeeds; sender ends at 4900 and
receiver at 3085. -/
theorem scenarioA_transfer_success :
    (transfer_money ratesUSDEUR FailSpec.none storeA
        ⟨some 1, some 2, some 100, some "USD"⟩).1.status = "success" ∧
    ((transfer_money ratesUSDEUR FailSpec.none storeA
        ⟨some 1, some 2, some 100, some "USD"⟩).2).balanceOf 1 = 4900 ∧
    ((transfer_money ratesUSDEUR FailSpec.none storeA
        ⟨some 1, some 2, some 100, some "USD"⟩).2).balanceOf 2 = 3085 := by
  norm_num +decide [transfer_money, get_exchange_rates, lookupRate, Store.getAccount, getRow,
    setRows, Store.setAmount, Store.balanceOf, FailSpec.none, errResult, storeA, ratesUSDEUR]

/-- Claim C2 counterexample: sender holds 95 USD; a request for 90 EUR
(worth 90/0.85 = 1800/17 > 95 in USD) is not rejected: the balance check of
api1.py line 425 compares against the raw requested amount, so the call
succeeds and drives the sender negative. -/
theorem balance_check_ignores_conversion_cex :
    (transfer_money ratesUSDEUR FailSpec.none storeC2
        ⟨some 1, some 2, some 90, some "EUR"⟩).1.status = "success" ∧
    storeC2.balanceOf 1 < 90 / (17/20 : ℚ) * 1 ∧
    ((transfer_money ratesUSDEUR FailSpec.none storeC2
        ⟨some 1, some 2, some 90, some "EUR"⟩).2).balanceOf 1 = -(185/17) := by
  norm_num +decide [transfer_money, get_exchange_rates, lookupRate, Store.getAccount, getRow,
    setRows, Store.setAmount, Store.balanceOf, FailSpec.none, errResult, storeC2, ratesUSDEUR]

/-- Claim C3 counterexample: the provider call raises (`none`), yet a
USD-to-USD transfer of 100 completes with status success at a silent 1:1
rate, mutating both balances — not an error with a rate-unavailable
message. -/
theorem provider_outage_silent_one_to_one_cex :
    (transfer_money none FailSpec.none storeUSDUSD
        ⟨some 1, some 2, some 100, some "USD"⟩).1.status = "success" ∧
    ((transfer_money none FailSpec.none storeUSDUSD
        ⟨some 1, some 2, some 100, some "USD"⟩).2).balanceOf 1 = 4900 ∧
    ((transfer_money none FailSpec.none storeUSDUSD
        ⟨some 1, some 2, some 100, some "USD"⟩).2).balanceOf 2 = 3100 := by
  norm_num +decide [transfer_money, get_exchange_rates, lookupRate, Store.getAccount, getRow,
    setRows, Store.setAmount, Store.balanceOf, FailSpec.none, errResult, storeUSDUSD]

/-- Claim C5 counterexample: a successful same-currency transfer whose sender
and receiver are the same account (id 1, 100 USD, transfer 50 USD to itself)
ends with balance 150: the receiver update overwrites the sender update, so
the sum of the two balances is not preserved. -/
theorem same_currency_self_transfer_breaks_conservation :
    (transfer_money (some [("USD", 1)]) FailSpec.none storeSelf
        ⟨some 1, some 1, some 50, some "USD"⟩).1.status = "success" ∧
    ((transfer_money (some [("USD", 1)]) FailSpec.none storeSelf
        ⟨some 1, some 1, some 50, some "USD"⟩).2).balanceOf 1 = 150 ∧
    ¬(((transfer_money (some [("USD", 1)]) FailSpec.none storeSelf
        ⟨some 1, some 1, some 50, some "USD"⟩).2).balanceOf 1 +
      ((transfer_money (some [("USD", 1)]) FailSpec.none storeSelf
        ⟨some 1, some 1, some 50, some "USD"⟩).2).balanceOf 1 =
      storeSelf.balanceOf 1 + storeSelf.balanceOf 1) := by
  norm_num +decide [transfer_money, get_exchange_rates, lookupRate, Store.getAccount, getRow,
    setRows, Store.setAmount, Store.balanceOf, FailSpec.none, errResult, storeSelf]

/-- Claim C7 counterexample: a request with the negative amount -50 is not
rejected by the lab_6 engine (no positivity check exists): it returns
success and moves money in reverse. -/
theorem nonpositive_amount_not_rejected_cex :
    (transfer_money (some [("USD", 1)]) FailSpec.none storeUSDUSD
        ⟨some 1, some 2, some (-50), some "USD"⟩).1.status = "success" ∧
    ((transfer_money (some [("USD", 1)]) FailSpec.none storeUSDUSD
        ⟨some 1, some 2, some (-50), some "USD"⟩).2).balanceOf 1 = 5050 ∧
    ((transfer_money (some [("USD", 1)]) FailSpec.none storeUSDUSD
        ⟨some 1, some 2, some (-50), some "USD"⟩).2).balanceOf 2 = 2950 := by
  norm_num +decide [transfer_money, get_exchange_rates, lookupRate, Store.getAccount, getRow,
    setRows, Store.setAmount, Store.balanceOf, FailSpec.none, errResult, storeUSDUSD]

/-- Claim C8 counterexample: a self-transfer (account 7 to itself, 40 EUR out
of 200) is not rejected: it returns success, appends a ledger record and
leaves the balance at 240. -/
theorem self_transfer_not_rejected_cex :
    (transfer_money (some [("EUR", 1)]) FailSpec.none storeSelf7
        ⟨some 7, some 7, some 40, some "EUR"⟩).1.status = "success" ∧
    ((transfer_money (some [("EUR", 1)]) FailSpec.none storeSelf7
        ⟨some 7, some 7, some 40, some "EUR"⟩).2).balanceOf 7 = 240 ∧
    ((transfer_money (some [("EUR", 1)]) FailSpec.none storeSelf7
        ⟨some 7, some 7, some 40, some "EUR"⟩).2).txs.length = 1 := by
  norm_num +decide [transfer_money, get_exchange_rates, lookupRate, Store.getAccount, getRow,
    setRows, Store.setAmount, Store.balanceOf, FailSpec.none, errResult, storeSelf7]

/-- Claim C2 (amended): with both accounts found, the engine returns the
Insufficient-funds error exactly when the sender's stored balance is below
the RAW requested amount (api1.py line 425, before any rate is fetched),
and in that case the store is untouched. -/
theorem insufficient_iff_raw_amount_exceeds_balance
    (provider : Option (List (String × ℚ))) (fs : FailSpec) (s : Store)
    (sid rid : Nat) (a : ℚ) (c : String) (sender receiver : Account)
    (hs : s.getAccount sid = some sender) (hr : s.getAccount rid = some receiver) :
    ((transfer_money provider fs s ⟨some sid, some rid, some a, some c⟩).1 =
        errResult "Insufficient funds" ↔ sender.amount < a) ∧
    (sender.amount < a →
      (transfer_money provider fs s ⟨some sid, some rid, some a, some c⟩).2 = s) := by
  simp only [transfer_money, hs, hr]
  by_cases hb : sender.amount < a
  · simp [hb]
  · rw [if_neg hb]
    refine ⟨⟨fun h => ?_, fun h => absurd h hb⟩, fun h => absurd h hb⟩
    exfalso
    repeat' split at h
    all_goals simp_all +decide [errResult, dbErrorMsg]

lemma transfer_success_shape
    (provider : Option (List (String × ℚ))) (fs : FailSpec) (s : Store)
    (sid rid : Nat) (a : ℚ) (c : String) (sender receiver : Account)
    (hs : s.getAccount sid = some sender) (hr : s.getAccount rid = some receiver)
    (hsucc : (transfer_money provider fs s ⟨some sid, some rid, some a, some c⟩).1.status = "success") :
    ∃ rc rs rr : ℚ,
      lookupRate (get_exchange_rates provider sender.currency) c = some rc ∧
      lookupRate (get_exchange_rates provider sender.currency) sender.currency = some rs ∧
      lookupRate (get_exchange_rates provider sender.currency) receiver.currency = some rr ∧
      ¬sender.amount < a ∧ ¬rc = 0 ∧
      (transfer_money provider fs s ⟨some sid, some rid, some a, some c⟩).2.accounts =
        setRows (setRows s.accounts sid (sender.amount - a / rc * rs)) rid
          (receiver.amount + a / rc * rr) := by
  simp only [transfer_money, hs, hr] at hsucc ⊢
  split at hsucc
  · simp [errResult] at hsucc
  · rename_i hb
    split at hsucc
    · rename_i rc rr hc hrr
      split at hsucc
      · simp [errResult] at hsucc
      · rename_i rs hrs
        split at hsucc
        · simp [errResult] at hsucc
        · rename_i h0
          split at hsucc
          · simp [errResult] at hsucc
          · rename_i hf1
            split at hsucc
            · simp [errResult] at hsucc
            · rename_i hf2
              split at hsucc
              · simp [errResult] at hsucc
              · rename_i hf3
                refine ⟨rc, rs, rr, hc, hrs, hrr, hb, h0, ?_⟩
                simp only [hc, hrr, hrs, if_neg hb, if_neg h0]
                simp only [Bool.not_eq_true] at hf1 hf2 hf3
                simp [hf1, hf2, hf3, Store.setAmount]
    · simp [errResult] at hsucc

/-- Claim C5 (amended): every successful transfer between two DISTINCT
accounts with the same currency preserves the sum of the two balances
(exact rational arithmetic): both converted amounts use the same rate
factor. -/
theorem distinct_accounts_same_currency_conservation
    (provider : Option (List (String × ℚ))) (fs : FailSpec) (s : Store)
    (sid rid : Nat) (a : ℚ) (c : String) (sender receiver : Account)
    (hne : sid ≠ rid)
    (hs : s.getAccount sid = some sender) (hr : s.getAccount rid = some receiver)
    (hcur : sender.currency = receiver.currency)
    (hsucc : (transfer_money provider fs s ⟨some sid, some rid, some a, some c⟩).1.status = "success") :
    (transfer_money provider fs s ⟨some sid, some rid, some a, some c⟩).2.balanceOf sid +
      (transfer_money provider fs s ⟨some sid, some rid, some a, some c⟩).2.balanceOf rid =
    s.balanceOf sid + s.balanceOf rid := by
  obtain ⟨rc, rs, rr, hc, hrs, hrr, hb, h0, hacc⟩ :=
    transfer_success_shape provider fs s sid rid a c sender receiver hs hr hsucc
  have hs' : getRow s.accounts sid = some sender := hs
  have hr' : getRow s.accounts rid = some receiver := hr
  have hsr : rs = rr := by
    have h2 : lookupRate (get_exchange_rates provider sender.currency) receiver.currency =
        some rs := by
      rw [← hcur]
      exact hrs
    rw [h2] at hrr
    exact Option.some.inj hrr
  have e1 : (transfer_money provider fs s ⟨some sid, some rid, some a, some c⟩).2.balanceOf sid =
      sender.amount - a / rc * rs := by
    simp [Store.balanceOf, Store.getAccount, hacc,
      getRow_setRows_ne _ _ _ _ hne, getRow_setRows_self, hs']
  have e2 : (transfer_money provider fs s ⟨some sid, some rid, some a, some c⟩).2.balanceOf rid =
      receiver.amount + a / rc * rr := by
    simp [Store.balanceOf, Store.getAccount, hacc, getRow_setRows_self,
      getRow_setRows_ne _ _ _ _ (Ne.symm hne), hr']
  have e3 : s.balanceOf sid = sender.amount := by simp [Store.balanceOf, hs]
  have e4 : s.balanceOf rid = receiver.amount := by simp [Store.balanceOf, hr]
  rw [e1, e2, e3, e4, hsr]
  ring

/-- Witness for the amended claim C5 at a concrete input: two distinct USD
accounts, transfer of 100 USD, sum of balances preserved. -/
theorem distinct_accounts_conservation_witness :
    (transfer_money (some [("USD", 1)]) FailSpec.none storeUSDUSD
        ⟨some 1, some 2, some 100, some "USD"⟩).2.balanceOf 1 +
      (transfer_money (some [("USD", 1)]) FailSpec.none storeUSDUSD
        ⟨some 1, some 2, some 100, some "USD"⟩).2.balanceOf 2 =
    storeUSDUSD.balanceOf 1 + storeUSDUSD.balanceOf 2 := by
  exact distinct_accounts_same_currency_conservation (some [("USD", 1)]) FailSpec.none
    storeUSDUSD 1 2 100 "USD" ⟨5000, "USD", "BankA"⟩ ⟨3000, "USD", "BankB"⟩
    (by decide) rfl rfl rfl
    (by norm_num +decide [transfer_money, get_exchange_rates, lookupRate, Store.getAccount,
      getRow, setRows, Store.setAmount, FailSpec.none, errResult, storeUSDUSD])

/-- Witness for the amended claim C2 at a concrete input: requesting 200 EUR
from a 95-USD account yields the Insufficient-funds error with the store
untouched. -/
theorem insufficient_iff_raw_amount_witness :
    (transfer_money ratesUSDEUR FailSpec.none storeC2
        ⟨some 1, some 2, some 200, some "EUR"⟩).1 = errResult "Insufficient funds" ∧
    (transfer_money ratesUSDEUR FailSpec.none storeC2
        ⟨some 1, some 2, some 200, some "EUR"⟩).2 = storeC2 := by
  have h := insufficient_iff_raw_amount_exceeds_balance ratesUSDEUR FailSpec.none storeC2
    1 2 200 "EUR" ⟨95, "USD", "BankA"⟩ ⟨3000, "EUR", "BankB"⟩ rfl rfl
  exact ⟨h.1.mpr (by norm_num), h.2 (by norm_num)⟩

/-- Claim C6: a Transaction record is appended exactly on success — one
record, carrying the requested amount and currency; every non-success
result appends nothing, and an Insufficient-funds rejection leaves the
whole store untouched (whatever the rate snapshot would have said). -/
theorem ledger_record_iff_success
    (provider : Option (List (String × ℚ))) (fs : FailSpec) (s : Store) (td : TransferData) :
    ((transfer_money provider fs s td).1.status = "success" →
      ∃ rec : TxRecord, (transfer_money provider fs s td).2.txs = s.txs ++ [rec] ∧
        td.amount = some rec.sent_amount ∧ td.currency = some rec.sent_currency) ∧
    ((transfer_money provider fs s td).1.status ≠ "success" →
      (transfer_money provider fs s td).2.txs = s.txs) ∧
    ((transfer_money provider fs s td).1.message = "Insufficient funds" →
      (transfer_money provider fs s td).2 = s) := by
  obtain ⟨os, orid, oa, oc⟩ := td
  rcases os with _ | sid <;> rcases orid with _ | rid <;>
    rcases oa with _ | a <;> rcases oc with _ | c
  all_goals try (simp +decide [transfer_money, errResult, TransferData.missingFields]; done)
  rcases hSA : s.getAccount sid with _ | sender
  · simp +decide [transfer_money, hSA, errResult]
  rcases hRA : s.getAccount rid with _ | receiver
  · simp +decide [transfer_money, hSA, hRA, errResult]
  by_cases hb : sender.amount < a
  · simp +decide [transfer_money, hSA, hRA, hb, errResult]
  rcases hC : lookupRate (get_exchange_rates provider sender.currency) c with _ | rc
  · simp +decide [transfer_money, hSA, hRA, hb, hC, errResult]
  rcases hRC : lookupRate (get_exchange_rates provider sender.currency) receiver.currency
      with _ | rr
  · simp +decide [transfer_money, hSA, hRA, hb, hC, hRC, errResult]
  rcases hSC : lookupRate (get_exchange_rates provider sender.currency) sender.currency
      with _ | rs
  · simp +decide [transfer_money, hSA, hRA, hb, hC, hRC, hSC, errResult]
  by_cases h0 : rc = 0
  · simp +decide [transfer_money, hSA, hRA, hb, hC, hRC, hSC, h0, errResult]
  obtain ⟨u1, u2, u3⟩ := fs
  cases u1
  · cases u2
    · cases u3
      · simp +decide [transfer_money, hSA, hRA, hb, hC, hRC, hSC, h0, errResult,
          Store.setAmount]
      · simp +decide [transfer_money, hSA, hRA, hb, hC, hRC, hSC, h0, errResult, dbErrorMsg,
          Store.setAmount]
    · simp +decide [transfer_money, hSA, hRA, hb, hC, hRC, hSC, h0, errResult, dbErrorMsg,
        Store.setAmount]
  · simp +decide [transfer_money, hSA, hRA, hb, hC, hRC, hSC, h0, errResult, dbErrorMsg]

/-- Witness for claim C6 at a concrete input: a request with a missing
sender id is not successful and appends no ledger record. -/
theorem ledger_record_iff_success_witness :
    (transfer_money (some [("USD", 1)]) FailSpec.none storeUSDUSD
        ⟨none, some 2, some 5, some "USD"⟩).2.txs = storeUSDUSD.txs :=
  (ledger_record_iff_success (some [("USD", 1)]) FailSpec.none storeUSDUSD
    ⟨none, some 2, some 5, some "USD"⟩).2.1
    (by norm_num +decide [transfer_money, errResult, TransferData.missingFields])

/-- Claim C3 (amended): when the provider call raises, `_get_exchange_rates`
falls back to the one-entry 1:1 mapping, and a transfer whose requested and
receiver currencies equal the sender's completes with status success at an
effective 1:1 rate — there is no rate-unavailable error and the balances are
mutated. -/
theorem provider_outage_same_currency_completes
    (s : Store) (sid rid : Nat) (a : ℚ) (sender receiver : Account)
    (hs : s.getAccount sid = some sender) (hr : s.getAccount rid = some receiver)
    (hb : ¬sender.amount < a) (hcur : receiver.currency = sender.currency) :
    (transfer_money none FailSpec.none s
        ⟨some sid, some rid, some a, some sender.currency⟩).1 =
      { status := "success", message := "Transfer completed successfully",
        details := some (sender.amount - a, receiver.amount + a, [(sender.currency, 1)]) } ∧
    (transfer_money none FailSpec.none s
        ⟨some sid, some rid, some a, some sender.currency⟩).2.accounts =
      setRows (setRows s.accounts sid (sender.amount - a)) rid (receiver.amount + a) := by
  simp only [transfer_money, hs, hr, if_neg hb, get_exchange_rates, Option.getD,
    lookupRate, hcur]
  norm_num [FailSpec.none, Store.setAmount]

/-- Witness for the amended claim C3: during a provider outage a USD-to-USD
transfer of 100 completes with success details 4900/3100 at rate 1. -/
theorem provider_outage_same_currency_witness :
    (transfer_money none FailSpec.none storeUSDUSD
        ⟨some 1, some 2, some 100, some "USD"⟩).1 =
      { status := "success", message := "Transfer completed successfully",
        details := some (4900, 3100, [("USD", 1)]) } := by
  have h := provider_outage_same_currency_completes storeUSDUSD 1 2 100
    ⟨5000, "USD", "BankA"⟩ ⟨3000, "USD", "BankB"⟩ rfl rfl (by norm_num) rfl
  rw [h.1]
  norm_num

/-- Claim C9: when the provider request raises, `_get_exchange_rates`
returns the one-entry mapping (sender currency, 1); a request that passes
the account and balance checks is then rejected as Unsupported currency
whenever its requested or receiver currency differs from the sender's, and
completes at an effective 1:1 rate (both converted amounts equal the
nominal amount) when all three currencies coincide. -/
theorem provider_outage_fallback_dichotomy
    (fs : FailSpec) (s : Store) (sid rid : Nat) (a : ℚ) (c : String)
    (sender receiver : Account)
    (hs : s.getAccount sid = some sender) (hr : s.getAccount rid = some receiver)
    (hb : ¬sender.amount < a) :
    get_exchange_rates none sender.currency = [(sender.currency, 1)] ∧
    (c ≠ sender.currency ∨ receiver.currency ≠ sender.currency →
      transfer_money none fs s ⟨some sid, some rid, some a, some c⟩ =
        (errResult "Unsupported currency", s)) ∧
    (c = sender.currency → receiver.currency = sender.currency →
      (transfer_money none FailSpec.none s ⟨some sid, some rid, some a, some c⟩).1 =
        { status := "success", message := "Transfer completed successfully",
          details := some (sender.amount - a, receiver.amount + a,
            [(sender.currency, 1)]) }) := by
  refine ⟨rfl, fun hne => ?_, fun hc hrc => ?_⟩
  · simp only [transfer_money, hs, hr, if_neg hb, get_exchange_rates, Option.getD,
      lookupRate]
    rcases hne with h | h
    · rw [if_neg (Ne.symm h)]
    · by_cases hcs : sender.currency = c
      · rw [if_pos hcs, if_neg (Ne.symm h)]
      · rw [if_neg hcs]
  · subst hc
    simp only [transfer_money, hs, hr, if_neg hb, get_exchange_rates, Option.getD,
      lookupRate, hrc]
    norm_num [FailSpec.none]

/-- Witness for claim C9: outage plus a EUR request against a USD sender is
rejected as Unsupported currency, and a USD request completes 1:1. -/
theorem provider_outage_fallback_witness :
    transfer_money none FailSpec.none storeUSDUSD ⟨some 1, some 2, some 100, some "EUR"⟩ =
      (errResult "Unsupported currency", storeUSDUSD) ∧
    (transfer_money none FailSpec.none storeUSDUSD
        ⟨some 1, some 2, some 100, some "USD"⟩).1.status = "success" := by
  have h := provider_outage_fallback_dichotomy FailSpec.none storeUSDUSD 1 2 100 "EUR"
    ⟨5000, "USD", "BankA"⟩ ⟨3000, "USD", "BankB"⟩ rfl rfl (by norm_num)
  have h2 := provider_outage_fallback_dichotomy FailSpec.none storeUSDUSD 1 2 100 "USD"
    ⟨5000, "USD", "BankA"⟩ ⟨3000, "USD", "BankB"⟩ rfl rfl (by norm_num)
  refine ⟨h.2.1 (Or.inl (by decide)), ?_⟩
  rw [h2.2.2 rfl rfl]

/-- Claim C8 (amended): the engine has no self-transfer guard. A request
whose sender and receiver ids are the same account, passing the other
checks, returns success, appends one ledger record, and leaves the account
at its original balance PLUS the converted receiver amount: the
receiver-balance UPDATE (computed from the pre-transfer read) overwrites
the sender-balance UPDATE. -/
theorem self_transfer_success_overwrites_debit
    (provider : Option (List (String × ℚ))) (s : Store) (i : Nat) (a : ℚ) (c : String)
    (acc : Account) (rc rs : ℚ)
    (hacc : s.getAccount i = some acc) (hb : ¬acc.amount < a)
    (hc : lookupRate (get_exchange_rates provider acc.currency) c = some rc)
    (hrs : lookupRate (get_exchange_rates provider acc.currency) acc.currency = some rs)
    (h0 : ¬rc = 0) :
    (transfer_money provider FailSpec.none s ⟨some i, some i, some a, some c⟩).1.status =
      "success" ∧
    (transfer_money provider FailSpec.none s ⟨some i, some i, some a, some c⟩).2.balanceOf i =
      acc.amount + a / rc * rs ∧
    (transfer_money provider FailSpec.none s ⟨some i, some i, some a, some c⟩).2.txs =
      s.txs ++ [⟨acc.bank_name, i, acc.bank_name, i, c, a⟩] := by
  have hacc' : getRow s.accounts i = some acc := hacc
  simp only [transfer_money, hacc, if_neg hb, hc, hrs, if_neg h0, FailSpec.none]
  refine ⟨rfl, ?_, rfl⟩
  simp [Store.balanceOf, Store.getAccount, Store.setAmount, getRow_setRows_self, hacc']

/-- Witness for the amended claim C8: account 7 (200 EUR) transferring
40 EUR to itself succeeds and ends at 240. -/
theorem self_transfer_overwrites_witness :
    (transfer_money (some [("EUR", 1)]) FailSpec.none storeSelf7
        ⟨some 7, some 7, some 40, some "EUR"⟩).1.status = "success" ∧
    (transfer_money (some [("EUR", 1)]) FailSpec.none storeSelf7
        ⟨some 7, some 7, some 40, some "EUR"⟩).2.balanceOf 7 = 240 := by
  have h := self_transfer_success_overwrites_debit (some [("EUR", 1)]) storeSelf7 7 40 "EUR"
    ⟨200, "EUR", "BankC"⟩ 1 1 rfl (by norm_num) (by norm_num [lookupRate, get_exchange_rates])
    (by norm_num [lookupRate, get_exchange_rates]) (by norm_num)
  refine ⟨h.1, ?_⟩
  rw [h.2.1]
  norm_num

/-- Claim C10: the lab_4 engine transfers the nominal amount with no
conversion: under the success conditions the call returns the success
message, the sum of the two balances is preserved exactly (also for a
self-transfer, because its updates are relative), and for distinct accounts
the sender loses and the receiver gains exactly the nominal amount. -/
theorem lab4_transfer_conserves_balance_sum
    (s : Store) (from_account_id to_account_id : Nat) (a : ℚ) (fa ta : Account)
    (h0 : 0 < a)
    (hf : s.getAccount from_account_id = some fa)
    (hb : ¬fa.amount < a)
    (ht : s.getAccount to_account_id = some ta) :
    (transfer_money_lab4 s from_account_id to_account_id a).1 =
      lab4SuccessMsg from_account_id to_account_id a ∧
    (transfer_money_lab4 s from_account_id to_account_id a).2.balanceOf from_account_id +
      (transfer_money_lab4 s from_account_id to_account_id a).2.balanceOf to_account_id =
      s.balanceOf from_account_id + s.balanceOf to_account_id ∧
    (from_account_id ≠ to_account_id →
      (transfer_money_lab4 s from_account_id to_account_id a).2.balanceOf from_account_id =
        s.balanceOf from_account_id - a ∧
      (transfer_money_lab4 s from_account_id to_account_id a).2.balanceOf to_account_id =
        s.balanceOf to_account_id + a) := by
  have hf' : getRow s.accounts from_account_id = some fa := hf
  have ht' : getRow s.accounts to_account_id = some ta := ht
  have hpos : ¬a ≤ 0 := not_le.mpr h0
  simp only [transfer_money_lab4, if_neg hpos, hf, if_neg hb, ht]
  refine ⟨rfl, ?_, fun hne => ?_⟩
  · by_cases he : from_account_id = to_account_id
    · subst he
      simp [Store.balanceOf, Store.getAccount, Store.addAmount, getRow_addRows_self, hf']
    · simp [Store.balanceOf, Store.getAccount, Store.addAmount, getRow_addRows_self,
        getRow_addRows_ne _ _ _ _ he, getRow_addRows_ne _ _ _ _ (Ne.symm he), hf', ht']
      ring
  · constructor
    · simp [Store.balanceOf, Store.getAccount, Store.addAmount, getRow_addRows_self,
        getRow_addRows_ne _ _ _ _ hne, hf']
      try ring
    · simp [Store.balanceOf, Store.getAccount, Store.addAmount, getRow_addRows_self,
        getRow_addRows_ne _ _ _ _ (Ne.symm hne), hf', ht']
      try ring

/-- Witness for claim C10: transferring 100 between the two accounts of
`storeA` preserves the sum of their balances. -/
theorem lab4_conserves_witness :
    (transfer_money_lab4 storeA 1 2 100).2.balanceOf 1 +
      (transfer_money_lab4 storeA 1 2 100).2.balanceOf 2 =
      storeA.balanceOf 1 + storeA.balanceOf 2 :=
  (lab4_transfer_conserves_balance_sum storeA 1 2 100
    ⟨5000, "USD", "BankA"⟩ ⟨3000, "EUR", "BankB"⟩ (by norm_num) rfl (by norm_num) rfl).2.1

/-- Claim C7 (amended): the lab_4 engine rejects a non-positive amount
before any store access, and the lab_6 engine rejects a request with any
missing required field before touching the store; the lab_6 engine has no
positivity check (see the counterexample). -/
theorem missing_or_nonpositive_rejection :
    (∀ (s : Store) (f t : Nat) (a : ℚ), a ≤ 0 →
      transfer_money_lab4 s f t a = ("Amount must be positive.", s)) ∧
    (∀ (provider : Option (List (String × ℚ))) (fs : FailSpec) (s : Store)
        (td : TransferData),
      td.sender_account_id = none ∨ td.receiver_account_id = none ∨
        td.amount = none ∨ td.currency = none →
      (transfer_money provider fs s td).1.status = "error" ∧
      (transfer_money provider fs s td).2 = s) := by
  constructor
  · intro s f t a ha
    simp [transfer_money_lab4, ha]
  · intro provider fs s td h
    obtain ⟨os, orid, oa, oc⟩ := td
    rcases os with _ | v1 <;> rcases orid with _ | v2 <;>
      rcases oa with _ | v3 <;> rcases oc with _ | v4 <;>
      simp_all [transfer_money, errResult]

/-- Witness for the amended claim C7: a zero-amount lab_4 transfer is
rejected with the store untouched, and a lab_6 request missing its sender
id is an error with the store untouched. -/
theorem missing_or_nonpositive_rejection_witness :
    transfer_money_lab4 storeA 1 2 0 = ("Amount must be positive.", storeA) ∧
    (transfer_money (some [("USD", 1)]) FailSpec.none storeA
        ⟨none, some 2, some 5, some "USD"⟩).1.status = "error" :=
  ⟨missing_or_nonpositive_rejection.1 storeA 1 2 0 le_rfl,
   (missing_or_nonpositive_rejection.2 (some [("USD", 1)]) FailSpec.none storeA
      ⟨none, some 2, some 5, some "USD"⟩ (Or.inl rfl)).1⟩
